import Mathlib

/-
Verification of the rockylinux-javaManager lifecycle orchestration engine.

The JavaScript sources (src/upgrade.js, src/install part of upgrade.js,
src/rollback.js, src/uninstall.js, bin CLI) drive the host through shell
commands.  We give a shallow embedding: the observable filesystem /
service state is an explicit record, every async JS function becomes a
state-passing function returning `Except Err`, and shell pipelines such
as `ls /opt | grep PAT | head -n 1` become explicit list computations
with the same semantics (grep = substring match, ls = lexicographic
order, a pipeline ending in head/tail always exits 0).

External capabilities that the code treats as possibly failing (wget
downloads, the install-path Tomcat restart, the uninstall command
chains) are driven by an explicit fault record; commands the claims do
not exercise as failing (mkdir, cp, tar, chown, chmod, systemctl
reloads) are modelled as succeeding.

`process.exit(n)` is modelled as an error that no JS-level try/catch can
intercept (`Err.exit`), while a rejected promise / thrown Error is
`Err.js` and is caught by `catchJS`, mirroring the try/catch blocks of
the source.  A ghost event log records every restore-from-backup that
actually copies a backup back into /opt, so that occurrence properties
("exactly one compensation") can be stated.
-/

namespace JavaManager

/-! ## String helpers (grep / sed / glob / sort semantics) -/

/-- Boolean list-prefix test (used for glob `name*` and sed `^pat`). -/
def listPrefixB : List Char → List Char → Bool
  | [], _ => true
  | _ :: _, [] => false
  | a :: as, b :: bs => a = b && listPrefixB as bs

/-- Boolean substring test on char lists (grep 'pat' semantics). -/
def listInfixB (p : List Char) : List Char → Bool
  | [] => listPrefixB p []
  | c :: cs => listPrefixB p (c :: cs) || listInfixB p cs

/-- `grep 'pat'` substring match. -/
def containsSub (s pat : String) : Bool := listInfixB pat.toList s.toList

/-- Anchored prefix match, for globs like `/opt/openjdk-*` and sed `^pat`. -/
def startsW (s pre : String) : Bool := listPrefixB pre.toList s.toList

/-- Remove the first occurrence of `p` in a char list (`sed 's/p//'`). -/
def removeFirstL (p : List Char) : List Char → List Char
  | [] => []
  | c :: cs =>
    if listPrefixB p (c :: cs) then (c :: cs).drop p.length
    else c :: removeFirstL p cs

/-- `sed 's/pat//'` / JS `String.replace(pat, "")`: drop first occurrence. -/
def removeFirstSub (s pat : String) : String :=
  String.mk (removeFirstL pat.toList s.toList)

/-- Lexicographic char-list comparison (byte order of `ls`). -/
def clLeB : List Char → List Char → Bool
  | [], _ => true
  | _ :: _, [] => false
  | a :: as, b :: bs =>
    if a = b then clLeB as bs else decide (a < b)

/-- Insertion into an `ls`-sorted list. -/
def insertStr (x : String) : List String → List String
  | [] => [x]
  | y :: ys => if clLeB x.toList y.toList then x :: y :: ys else y :: insertStr x ys

/-- Sort file names the way `ls` prints them. -/
def sortStr (l : List String) : List String := l.foldr insertStr []

/-- `ls DIR | grep 'pat' | head -n 1`.  The pipeline ends in `head`, so it
always exits 0; an empty result is the empty string (JS falsy). -/
def lsGrepHead (l : List String) (pat : String) : String :=
  match sortStr (l.filter (fun n => containsSub n pat)) with
  | [] => ""
  | x :: _ => x

/-! ### `sort -V` (version sort), used by rollback.js to pick the latest backup -/

/-- Token of a version string: maximal digit run (as a number) or
non-digit run. -/
inductive VTok where
  | num (n : Nat)
  | str (s : List Char)
deriving DecidableEq, Repr

/-- Numeric value of a digit run. -/
def natOfDigits (l : List Char) : Nat :=
  l.foldl (fun n c => n * 10 + (c.toNat - 48)) 0

/-- Tokenize a version string, fuelled by the list length. -/
def toVToksAux : Nat → List Char → List VTok
  | 0, _ => []
  | _ + 1, [] => []
  | fuel + 1, c :: cs =>
    if c.isDigit then
      let ds := (c :: cs).takeWhile Char.isDigit
      let rest := (c :: cs).dropWhile Char.isDigit
      VTok.num (natOfDigits ds) :: toVToksAux fuel rest
    else
      let ss := (c :: cs).takeWhile (fun x => !x.isDigit)
      let rest := (c :: cs).dropWhile (fun x => !x.isDigit)
      VTok.str ss :: toVToksAux fuel rest

def toVToks (s : String) : List VTok := toVToksAux s.toList.length s.toList

/-- Strict order on tokens: numbers compare numerically; a number sorts
before a letter run; letter runs compare lexicographically. -/
def vtokLtB : VTok → VTok → Bool
  | .num m, .num n => decide (m < n)
  | .num _, .str _ => true
  | .str _, .num _ => false
  | .str a, .str b => !clLeB b a

def vtoksLtB : List VTok → List VTok → Bool
  | [], [] => false
  | [], _ :: _ => true
  | _ :: _, [] => false
  | a :: as, b :: bs => if a = b then vtoksLtB as bs else vtokLtB a b

/-- Version-aware `≤` (GNU `sort -V` style for the names this system uses). -/
def versionLeB (a b : String) : Bool :=
  a = b || vtoksLtB (toVToks a) (toVToks b)

/-- `sort -V | tail -n 1`: greatest element under version order, `""` when
the list is empty (pipeline ends in `tail`, so it exits 0 regardless). -/
def sortVLast : List String → String
  | [] => ""
  | x :: xs => xs.foldl (fun m y => if versionLeB m y then y else m) x

/-! ## Observable host state -/

/-- Ghost events: every restore that actually copies a backup back into
`/opt` is recorded, so occurrence properties can be stated. -/
inductive Evt where
  | restoreJava (v : String)
  | restoreTomcat (v : String)
deriving DecidableEq, Repr

/-- The parts of the host the program observes and mutates:
directory names under `/opt`, the two backup areas, the environment
files (as line lists), the systemd unit file names, the active Tomcat
service, and the `previous_versions.json` record.  `ghostLog` is
instrumentation only. -/
structure FsState where
  optDirs : List String
  javaBackups : List String
  tomcatBackups : List String
  etcProfile : List String
  etcEnvironment : List String
  serviceUnits : List String
  activeTomcat : Option String
  prevVersionsFile : Option (String × String)
  ghostLog : List Evt
deriving DecidableEq, Repr

/-- Desired-state descriptor (mavee_config_*.json contents). -/
structure Cfg where
  javaVersion : String
  javaUrl : String
  tomcatVersion : String
  tomcatUrl : String
deriving DecidableEq, Repr

/-- Fault model for the external capabilities. `config` is the upgrade
descriptor (`none` = file missing). The `ExtractName`s are the directory
names the two tarballs unpack to. -/
structure Faults where
  config : Option Cfg
  javaWgetOk : Bool
  tomcatWgetOk : Bool
  javaExtractName : String
  tomcatExtractName : String
  installCfg : Cfg
  installJavaWgetOk : Bool
  installTomcatWgetOk : Bool
  tomcatRestartOk : Bool
  uninstallJavaOk : Bool
  uninstallTomcatOk : Bool
deriving DecidableEq, Repr

/-- Errors: `js` is a rejected promise / thrown Error (catchable by JS
try/catch); `exit c` is `process.exit(c)`, which no try/catch stops. -/
inductive Err where
  | js (msg : String)
  | exit (code : Nat)
deriving DecidableEq, Repr

instance {ε α : Type} [DecidableEq ε] [DecidableEq α] : DecidableEq (Except ε α) := fun x y =>
  match x, y with
  | .ok a, .ok b => if h : a = b then .isTrue (by simp [h]) else .isFalse (by simp [h])
  | .ok _, .error _ => .isFalse (by simp)
  | .error _, .ok _ => .isFalse (by simp)
  | .error e1, .error e2 => if h : e1 = e2 then .isTrue (by simp [h]) else .isFalse (by simp [h])

/-- The effect monad: explicit state passing with an `Except` result.
State changes made before a throw persist, exactly as JS side effects
survive an exception. -/
def M (α : Type) : Type := FsState → Except Err α × FsState

def pureM {α : Type} (a : α) : M α := fun s => (.ok a, s)

def bindM {α β : Type} (m : M α) (k : α → M β) : M β := fun s =>
  match m s with
  | (.ok a, s1) => k a s1
  | (.error e, s1) => (.error e, s1)

instance : Monad M where
  pure := pureM
  bind := bindM

def throwM {α : Type} (e : Err) : M α := fun s => (.error e, s)

def getS : M FsState := fun s => (.ok s, s)

def modifyS (f : FsState → FsState) : M Unit := fun s => (.ok (), f s)

/-- JS `try { body } catch (e) { h }`: catches thrown errors / rejected
promises, but `process.exit` still terminates everything. -/
def catchJS {α : Type} (body : M α) (h : String → M α) : M α := fun s =>
  match body s with
  | (.ok a, s1) => (.ok a, s1)
  | (.error (.js m), s1) => h m s1
  | (.error (.exit c), s1) => (.error (.exit c), s1)

/-- JS try/catch reified as a value: the caught message or the result. -/
def tryJS {α : Type} (body : M α) : M (Except String α) := fun s =>
  match body s with
  | (.ok a, s1) => (.ok (.ok a), s1)
  | (.error (.js m), s1) => (.ok (.error m), s1)
  | (.error (.exit c), s1) => (.error (.exit c), s1)

/-- Run a program on a state. -/
def runM {α : Type} (m : M α) (s : FsState) : Except Err α × FsState := m s

/-! ## Elementary filesystem transitions -/

/-- `sudo rm -rf /opt/PRE*`: glob removal of every matching directory. -/
def rmOptGlob (st : FsState) (pre : String) : FsState :=
  { st with optDirs := st.optDirs.filter (fun n => !(startsW n pre)) }

/-- `sudo rm -rf /opt/NAME`: removal of one named directory. -/
def rmOptName (st : FsState) (n : String) : FsState :=
  { st with optDirs := st.optDirs.filter (fun m => m ≠ n) }

/-- A directory appearing under `/opt` (mv/cp/tar target). -/
def addOpt (st : FsState) (n : String) : FsState :=
  { st with optDirs := st.optDirs ++ [n] }

/-- `tee FILE` on a systemd unit path: (over)writes the named unit. -/
def addUnit (st : FsState) (n : String) : FsState :=
  if n ∈ st.serviceUnits then st
  else { st with serviceUnits := st.serviceUnits ++ [n] }

/-- The environment rewrite block shared verbatim by `upgradeJava`
(upgrade.js 261-272) and the Java branch of `rollbackUpgrade`
(upgrade.js 174-184): three `sed -i '/^…/d'` deletions followed by three
`tee -a` appends, values unquoted. -/
def setJavaEnvUpgrade (javaDir : String) (st : FsState) : FsState :=
  { st with
    etcProfile :=
      ((st.etcProfile.filter (fun ln => !(startsW ln "export JAVA_HOME="))).filter
          (fun ln => !(startsW ln "export PATH=" && containsSub ln "JAVA_HOME")))
        ++ ["export JAVA_HOME=" ++ javaDir, "export PATH=$JAVA_HOME/bin:$PATH"],
    etcEnvironment :=
      (st.etcEnvironment.filter (fun ln => !(startsW ln "JAVA_HOME="))) ++
        ["JAVA_HOME=" ++ javaDir] }

/-! ## upgrade.js -/

/-- `getCurrentVersions` (upgrade.js 57-80): the first line of
`ls /opt | grep 'openjdk-'` with the `openjdk-` substring deleted by
sed.  The pipeline ends in `head`, hence exits 0; absence yields `""`. -/
def currentJavaOf (s : FsState) : String :=
  removeFirstSub (lsGrepHead s.optDirs "openjdk-") "openjdk-"

/-- Tomcat half of `getCurrentVersions` (upgrade.js 70-77). -/
def currentTomcatOf (s : FsState) : String :=
  removeFirstSub (lsGrepHead s.optDirs "tomcat-") "tomcat-"

/-- `getCurrentVersions` (upgrade.js 57-80). -/
def getCurrentVersions : M (String × String) := fun s =>
  (.ok (currentJavaOf s, currentTomcatOf s), s)

/-- `readUpgradeConfiguration` (upgrade.js 28-47): throws when the
descriptor is missing, else returns the four desired-state fields. -/
def readUpgradeConfiguration (f : Faults) : M Cfg := fun s =>
  match f.config with
  | some c => (.ok c, s)
  | none => (.error (.js "upgrade configuration file not found"), s)

/-- `validateUpgradeConditions` (upgrade.js 82-109): `process.exit(1)`
when both versions already match, when the Java version alone matches,
or when the Tomcat version alone matches. -/
def validateUpgradeConditions (jv tv : String) : M Unit := do
  let (cj, ct) ← getCurrentVersions
  if jv = cj ∧ tv = ct then throwM (.exit 1)
  else if jv = cj then throwM (.exit 1)
  else if tv = ct then throwM (.exit 1)
  else pure ()

/-- `createBackup` (upgrade.js 119-133) for the Java backup area: if the
destination (same component, same version suffix) already exists it is
removed first, then `cp -r` recreates it. -/
def createBackupJava (name : String) : M Unit := fun s =>
  (.ok (), { s with javaBackups := (s.javaBackups.filter (fun m => m ≠ name)) ++ [name] })

/-- `createBackup` (upgrade.js 119-133) for the Tomcat backup area. -/
def createBackupTomcat (name : String) : M Unit := fun s =>
  (.ok (), { s with tomcatBackups := (s.tomcatBackups.filter (fun m => m ≠ name)) ++ [name] })

/-- `rollbackUpgrade` (upgrade.js 159-219): restore Java from
`/opt/java_backups/openjdk-<prevJ>` when that backup directory exists
(glob-remove `/opt/openjdk-*`, copy back, rewrite environment), then the
same for Tomcat plus a service restart.  Its own catch block swallows
every error (upgrade.js 216-218). -/
def rollbackUpgrade (prevJ prevT : String) : M Unit :=
  catchJS
    (do
      let s ← getS
      if ("openjdk-" ++ prevJ) ∈ s.javaBackups then do
        modifyS (fun st => rmOptGlob st "openjdk-")
        modifyS (fun st => addOpt st ("openjdk-" ++ prevJ))
        modifyS (setJavaEnvUpgrade ("/opt/openjdk-" ++ prevJ))
        modifyS (fun st => { st with ghostLog := st.ghostLog ++ [Evt.restoreJava prevJ] })
      else pure ()
      let s2 ← getS
      if ("tomcat-" ++ prevT) ∈ s2.tomcatBackups then do
        modifyS (fun st => rmOptGlob st "tomcat-")
        modifyS (fun st => addOpt st ("tomcat-" ++ prevT))
        modifyS (fun st => { st with activeTomcat := some prevT })
        modifyS (fun st => { st with ghostLog := st.ghostLog ++ [Evt.restoreTomcat prevT] })
      else pure ())
    (fun _ => pure ())

/-- `upgradeJava` (upgrade.js 221-280).  Backs up and removes the
current installation, downloads the new tarball (on download failure it
invokes `rollbackUpgrade` with the NEW `javaVersion` and the current
Tomcat version, then rethrows), extracts, renames `jdk-*` to the
canonical directory and rewrites the environment. -/
def upgradeJava (f : Faults) (jv : String) (jurl : String) : M Bool := do
  let s ← getS
  let existingJava := lsGrepHead s.optDirs "openjdk-"
  if existingJava ≠ "" then do
    createBackupJava existingJava
    modifyS (fun st => rmOptName st existingJava)
  else pure ()
  if f.javaWgetOk then pure ()
  else do
    let (_, curT) ← getCurrentVersions
    rollbackUpgrade jv curT
    throwM (.js ("wget failed: " ++ jurl))
  modifyS (fun st => addOpt st f.javaExtractName)
  let s2 ← getS
  let extractedFolder := lsGrepHead s2.optDirs "jdk-"
  if extractedFolder ≠ "" then
    modifyS (fun st => addOpt (rmOptName st extractedFolder) ("openjdk-" ++ jv))
  else pure ()
  modifyS (setJavaEnvUpgrade ("/opt/openjdk-" ++ jv))
  pure true

/-- `upgradeTomcat` (upgrade.js 282-396).  Backs up and removes the
current installation, downloads (on failure it re-reads the current
versions and invokes `rollbackUpgrade` with them, then rethrows),
extracts, renames `apache-tomcat-*`, writes the systemd unit for the new
version, restarts it and finally prunes every other `tomcat-` unit. -/
def upgradeTomcat (f : Faults) (tv : String) (turl : String) : M Unit := do
  let s ← getS
  let existingTomcat := lsGrepHead s.optDirs "tomcat-"
  if existingTomcat ≠ "" then do
    createBackupTomcat existingTomcat
    modifyS (fun st => rmOptName st existingTomcat)
  else pure ()
  if f.tomcatWgetOk then pure ()
  else do
    let (curJ, curT) ← getCurrentVersions
    rollbackUpgrade curJ curT
    throwM (.js ("wget failed: " ++ turl))
  modifyS (fun st => addOpt st f.tomcatExtractName)
  let s2 ← getS
  let extractedFolder := lsGrepHead s2.optDirs "apache-tomcat-"
  if extractedFolder ≠ "" then
    modifyS (fun st => addOpt (rmOptName st extractedFolder) ("tomcat-" ++ tv))
  else pure ()
  modifyS (fun st => addUnit st ("tomcat-" ++ tv ++ ".service"))
  modifyS (fun st => { st with activeTomcat := some tv })
  modifyS (fun st => { st with serviceUnits :=
    (st.serviceUnits.filter
      (fun n => !(containsSub n "tomcat-" && !containsSub n ("tomcat-" ++ tv)))) })
  pure ()

/-- `upgrade` (upgrade.js 398-435): read the descriptor, snapshot the
current versions, validate, upgrade Java (on failure: log and `return`),
then upgrade Tomcat (on failure: when Java was upgraded, one
`rollbackUpgrade` with the snapshotted pre-transaction versions, then
rethrow).  The outer catch swallows everything (upgrade.js 432-434). -/
def upgrade (f : Faults) : M Unit :=
  catchJS
    (do
      let cfg ← readUpgradeConfiguration f
      let (curJ, curT) ← getCurrentVersions
      validateUpgradeConditions cfg.javaVersion cfg.tomcatVersion
      let r ← tryJS (upgradeJava f cfg.javaVersion cfg.javaUrl)
      match r with
      | .error _ => pure ()
      | .ok javaUpgraded => do
        let r2 ← tryJS (upgradeTomcat f cfg.tomcatVersion cfg.tomcatUrl)
        match r2 with
        | .ok _ => pure ()
        | .error m => do
          if javaUpgraded then rollbackUpgrade curJ curT else pure ()
          throwM (.js m))
    (fun _ => pure ())

/-- The CLI `upgrade` command (bin, `program.command("upgrade")`):
`process.exit(0)` after `await upgrade()` returns, `process.exit(1)` if
it rejects; a `process.exit` inside `upgrade` ends the process with that
code. -/
def cliUpgradeExit (f : Faults) (s : FsState) : Nat :=
  match runM (upgrade f) s with
  | (.ok _, _) => 0
  | (.error (.exit c), _) => c
  | (.error (.js _), _) => 1

/-! ## rollback.js -/

/-- `rollbackJava` (rollback.js 22-58): pick the greatest
`sort -V` backup matching `openjdk-`; when none, log and return
normally.  Otherwise glob-remove `/opt/openjdk-*`, copy the backup back
(the backup itself is not deleted), and rewrite the `JAVA_HOME` line of
`/etc/environment` only (quoted value).  Its catch swallows errors. -/
def rollbackJava : M Unit :=
  catchJS
    (do
      let s ← getS
      let latest := sortVLast (s.javaBackups.filter (fun n => containsSub n "openjdk-"))
      if latest = "" then pure ()
      else do
        modifyS (fun st => rmOptGlob st "openjdk-")
        modifyS (fun st => addOpt st latest)
        modifyS (fun st => { st with etcEnvironment :=
          ((st.etcEnvironment.filter (fun ln => !(startsW ln "JAVA_HOME="))) ++
            ["JAVA_HOME=\x22/opt/" ++ latest ++ "\x22"]) })
        modifyS (fun st => { st with ghostLog :=
          (st.ghostLog ++ [Evt.restoreJava (removeFirstSub latest "openjdk-")]) }))
    (fun _ => pure ())

/-- `rollbackTomcat` (rollback.js 63-133): pick the greatest `sort -V`
backup matching `tomcat-`; when none, log and return normally.
Otherwise stop/disable every tomcat unit, glob-remove `/opt/tomcat-*`,
copy the backup back, regenerate the unit file for the restored version,
reload, enable and restart it.  Its catch swallows errors. -/
def rollbackTomcat : M Unit :=
  catchJS
    (do
      let s ← getS
      let latest := sortVLast (s.tomcatBackups.filter (fun n => containsSub n "tomcat-"))
      if latest = "" then pure ()
      else do
        modifyS (fun st => { st with activeTomcat := none })
        modifyS (fun st => rmOptGlob st "tomcat-")
        modifyS (fun st => addOpt st latest)
        let ver := removeFirstSub latest "tomcat-"
        modifyS (fun st => addUnit st ("tomcat-" ++ ver ++ ".service"))
        modifyS (fun st => { st with activeTomcat := some ver })
        modifyS (fun st => { st with ghostLog :=
          (st.ghostLog ++ [Evt.restoreTomcat ver]) }))
    (fun _ => pure ())

/-- `rollback` (rollback.js 138-149): both component rollbacks in
sequence, with one more error-swallowing catch around them. -/
def rollback : M Unit :=
  catchJS (do rollbackJava; rollbackTomcat) (fun _ => pure ())

/-- The CLI `rollback` command runs `safeAction(rollback)`: exit 1 when
the action rejects, otherwise the process finishes with status 0. -/
def cliRollbackExit (s : FsState) : Nat :=
  match runM rollback s with
  | (.ok _, _) => 0
  | (.error _, _) => 1

/-! ## uninstall.js -/

/-- `uninstallJava` (uninstall.js 24-45): one `&&`-joined command chain
removing every `/opt/openjdk-*`, the whole Java backup area and every
line mentioning `JAVA_HOME` from the environment files; the surrounding
try/catch only logs, so the function always resolves.  A false
`uninstallJavaOk` makes the chain fail (modelled as failing up front). -/
def uninstallJava (f : Faults) : M Unit :=
  catchJS
    (if f.uninstallJavaOk then do
      modifyS (fun st => rmOptGlob st "openjdk-")
      modifyS (fun st => { st with javaBackups := [] })
      modifyS (fun st => { st with
        etcEnvironment := st.etcEnvironment.filter (fun ln => !(containsSub ln "JAVA_HOME")),
        etcProfile := st.etcProfile.filter (fun ln => !(containsSub ln "JAVA_HOME")) })
    else throwM (.js "uninstall java command chain failed"))
    (fun _ => pure ())

/-- `uninstallTomcat` (uninstall.js 50-84): stop/disable units (guarded
by `|| true`, hence always past), then remove unit files, kill
processes, remove `/opt/tomcat-*`, the backup area and every
`CATALINA_HOME` line; the try/catch only logs, so it always resolves. -/
def uninstallTomcat (f : Faults) : M Unit :=
  catchJS
    (do
      modifyS (fun st => { st with activeTomcat := none })
      if f.uninstallTomcatOk then do
        modifyS (fun st => { st with serviceUnits :=
          (st.serviceUnits.filter (fun n => !(startsW n "tomcat-"))) })
        modifyS (fun st => rmOptGlob st "tomcat-")
        modifyS (fun st => { st with tomcatBackups := [] })
        modifyS (fun st => { st with
          etcEnvironment := st.etcEnvironment.filter (fun ln => !(containsSub ln "CATALINA_HOME")),
          etcProfile := st.etcProfile.filter (fun ln => !(containsSub ln "CATALINA_HOME")) })
      else throwM (.js "uninstall tomcat command failed"))
    (fun _ => pure ())

/-- `removePreviousVersionsFile` (uninstall.js 90-126): delete the
record file when present; every failure is caught and logged. -/
def removePreviousVersionsFile : M Unit := fun s =>
  match s.prevVersionsFile with
  | some _ => (.ok (), { s with prevVersionsFile := none })
  | none => (.ok (), s)

/-- `fullUninstall` (uninstall.js 134-140). -/
def fullUninstall (f : Faults) : M Unit := do
  uninstallJava f
  uninstallTomcat f

/-- The CLI `uninstall` command: `safeAction` around `uninstallJava`,
`uninstallTomcat`, `removePreviousVersionsFile`; exit 1 only when the
action rejects, otherwise the process ends with status 0. -/
def cliUninstallExit (f : Faults) (s : FsState) : Nat :=
  match runM (do uninstallJava f; uninstallTomcat f; removePreviousVersionsFile) s with
  | (.ok _, _) => 0
  | (.error _, _) => 1

/-! ## install half of src (installJava / installTomcat / install) -/

/-- `installJava` (install source, upgrade.js concatenation 451-497):
one bash `&&` chain: download, extract into `/opt`, look up the first
`ls /opt | grep 'jdk' | head -n 1` entry, remove `/opt/openjdk-<v>`,
rename the extracted directory to it, then overwrite `/etc/environment`
with a single quoted `JAVA_HOME` line (`tee`, no `-a`) and APPEND quoted
`export JAVA_HOME` and `export PATH` lines to `/etc/profile`
(`tee -a`, with no prior sed deletion). -/
def installJava (f : Faults) : M Unit := do
  let jv := f.installCfg.javaVersion
  if f.installJavaWgetOk then pure ()
  else throwM (.js ("wget failed: " ++ f.installCfg.javaUrl))
  modifyS (fun st => addOpt st f.javaExtractName)
  let s ← getS
  let extracted := lsGrepHead s.optDirs "jdk"
  modifyS (fun st => rmOptName st ("openjdk-" ++ jv))
  if extracted ≠ "" then
    modifyS (fun st => addOpt (rmOptName st extracted) ("openjdk-" ++ jv))
  else throwM (.js "mv failed: no extracted folder")
  modifyS (fun st => { st with etcEnvironment :=
    ["JAVA_HOME=\x22/opt/openjdk-" ++ jv ++ "\x22"] })
  modifyS (fun st => { st with etcProfile :=
    (st.etcProfile ++
      ["export JAVA_HOME=\x22/opt/openjdk-" ++ jv ++ "\x22",
       "export PATH=\x22$JAVA_HOME/bin:$PATH\x22"]) })

/-- `installTomcat` (install source 503-596): create the canonical
directory, download and extract into it (strip-components), ensure the
unit file exists (write it when absent) and restart the service; a
failed restart rejects the whole install step. -/
def installTomcat (f : Faults) : M Unit := do
  let tv := f.installCfg.tomcatVersion
  modifyS (fun st => if ("tomcat-" ++ tv) ∈ st.optDirs then st else addOpt st ("tomcat-" ++ tv))
  if f.installTomcatWgetOk then pure ()
  else throwM (.js ("wget failed: " ++ f.installCfg.tomcatUrl))
  let s ← getS
  if ("tomcat-" ++ tv ++ ".service") ∈ s.serviceUnits then pure ()
  else modifyS (fun st => addUnit st ("tomcat-" ++ tv ++ ".service"))
  if f.tomcatRestartOk then modifyS (fun st => { st with activeTomcat := some tv })
  else throwM (.js "tomcat restart failed")

/-- `createPreviousVersionsFile` (install source 597-627): write the
record `{install: {java, tomcat}}` with the versions the install just
put in place; all errors are caught and logged. -/
def createPreviousVersionsFile (j t : String) : M Unit :=
  catchJS
    (modifyS (fun st => { st with prevVersionsFile := some (j, t) }))
    (fun _ => pure ())

/-- `install` (install source 630-642): `installJava`, `installTomcat`,
then persist the record of the just-installed pair.  The catch block
only logs, so `install` always resolves. -/
def install (f : Faults) : M Unit :=
  catchJS
    (do
      installJava f
      installTomcat f
      createPreviousVersionsFile f.installCfg.javaVersion f.installCfg.tomcatVersion)
    (fun _ => pure ())

/-- The CLI `install` command runs `safeAction(install)`: exit 1 only
when `install` rejects (it never does), else status 0. -/
def cliInstallExit (f : Faults) (s : FsState) : Nat :=
  match runM (install f) s with
  | (.ok _, _) => 0
  | (.error _, _) => 1

/-! ## Concrete scenarios (the spec's own test scenarios, section 8) -/

/-- A host with Java `j` and Tomcat `t` installed and configured, no
backups yet (the state right after a fresh provisioning). -/
def mkState (j t : String) : FsState :=
  { optDirs := ["openjdk-" ++ j, "tomcat-" ++ t],
    javaBackups := [],
    tomcatBackups := [],
    etcProfile := ["export JAVA_HOME=/opt/openjdk-" ++ j, "export PATH=$JAVA_HOME/bin:$PATH"],
    etcEnvironment := ["JAVA_HOME=/opt/openjdk-" ++ j],
    serviceUnits := ["tomcat-" ++ t ++ ".service"],
    activeTomcat := some t,
    prevVersionsFile := none,
    ghostLog := [] }

/-- A bare host: nothing installed, empty configuration files. -/
def sEmpty : FsState :=
  { optDirs := [], javaBackups := [], tomcatBackups := [],
    etcProfile := [], etcEnvironment := [], serviceUnits := [],
    activeTomcat := none, prevVersionsFile := none, ghostLog := [] }

/-- Faults with every external capability succeeding, descriptor `c`,
tarballs extracting to `jx` and `tx`. -/
def noFaults (c : Cfg) (jx tx : String) : Faults :=
  { config := some c, javaWgetOk := true, tomcatWgetOk := true,
    javaExtractName := jx, tomcatExtractName := tx, installCfg := c,
    installJavaWgetOk := true, installTomcatWgetOk := true,
    tomcatRestartOk := true, uninstallJavaOk := true, uninstallTomcatOk := true }

/-- Desired state Java 2 / Tomcat 9.0.2. -/
def cfg12 : Cfg :=
  { javaVersion := "2", javaUrl := "https://dl.example/java-2.tar.gz",
    tomcatVersion := "9.0.2", tomcatUrl := "https://dl.example/tomcat-9.0.2.tar.gz" }

/-- Desired state Java 3 / Tomcat 9.0.3. -/
def cfg23 : Cfg :=
  { javaVersion := "3", javaUrl := "https://dl.example/java-3.tar.gz",
    tomcatVersion := "9.0.3", tomcatUrl := "https://dl.example/tomcat-9.0.3.tar.gz" }

/-- Host at Java 1 / Tomcat 9.0.1. -/
def sInit1 : FsState := mkState "1" "9.0.1"

def fUpTo2 : Faults := noFaults cfg12 "jdk-2.0.1" "apache-tomcat-9.0.2"

def fUpTo3 : Faults := noFaults cfg23 "jdk-3.0.1" "apache-tomcat-9.0.3"

/-- The spec's compensation scenario: Java fetch succeeds, Tomcat fetch
fails. -/
def fUpTo2TomcatFail : Faults := { fUpTo2 with tomcatWgetOk := false }

/-- Java fetch fails mid-upgrade (after the old version was removed). -/
def fUpTo2JavaFail : Faults := { fUpTo2 with javaWgetOk := false }

/-- The state after the successful coordinated upgrade 1 to 2. -/
def afterUpTo2 : FsState := (runM (upgrade fUpTo2) sInit1).2

/-- The state after upgrading the same host twice (1 to 2 to 3). -/
def afterTwoUpgrades : FsState := (runM (upgrade fUpTo3) afterUpTo2).2

/-- Install faults whose Java download fails. -/
def fInstallJavaFail : Faults := { fUpTo2 with installJavaWgetOk := false }

/-- Upgrade descriptor whose Java version already matches the host of
`sInit1` while the Tomcat version differs. -/
def fJavaOnlyMatch : Faults := noFaults { cfg12 with javaVersion := "1" } "jx" "tx"

/-- Upgrade descriptor matching the host of `sInit1` on both
components. -/
def fBothMatch : Faults :=
  noFaults { cfg12 with javaVersion := "1", tomcatVersion := "9.0.1" } "jx" "tx"

/-- A host whose environment files already carry duplicated JAVA_HOME
declarations (for instance left behind by repeated installs), with a
Java backup available. -/
def sDupEnv : FsState :=
  { sInit1 with
    etcProfile := ["export JAVA_HOME=/opt/openjdk-0",
      "export JAVA_HOME=/opt/openjdk-1", "export PATH=$JAVA_HOME/bin:$PATH"],
    etcEnvironment := ["JAVA_HOME=/opt/openjdk-0", "JAVA_HOME=/opt/openjdk-1"],
    javaBackups := ["openjdk-1"] }

/-- The state after a fresh install of the pair (2, 9.0.2) on a bare
host. -/
def afterFreshInstall : FsState := (runM (install fUpTo2) sEmpty).2

/-- Recognizer for the ghost event of a Java restore-from-backup. -/
def isJavaRestore : Evt → Bool
  | .restoreJava _ => true
  | .restoreTomcat _ => false

/-! ## Unfolding lemmas for the monad -/

theorem bind_def {α β : Type} (m : M α) (k : α → M β) : m >>= k = bindM m k := rfl

theorem pure_def {α : Type} (a : α) : (pure a : M α) = pureM a := rfl

/-- `validateUpgradeConditions` exits the process with status 1 as soon
as either desired version matches the corresponding current version. -/
theorem validate_exit (jv tv : String) (s : FsState)
    (h : jv = currentJavaOf s ∨ tv = currentTomcatOf s) :
    validateUpgradeConditions jv tv s = (Except.error (Err.exit 1), s) := by
  unfold validateUpgradeConditions
  simp only [bind_def, bindM, getCurrentVersions, pure_def, pureM, throwM]
  rcases h with h | h
  · by_cases h2 : tv = currentTomcatOf s <;> simp [h, h2, throwM]
  · by_cases h1 : jv = currentJavaOf s <;> simp [h, h1, throwM]

/-! ## Claims -/

/-- Claim C1: in the coordinated upgrade where the Java component
upgrade 1 to 2 succeeds and the Tomcat upgrade then fails at the
artifact fetch, exactly one compensation restores Java from backup, it
restores the prior version 1, and the end state has Java at 1 and
Tomcat at its pre-transaction version 9.0.1. -/
theorem C1_single_compensation_restores_prior_pair :
    ((runM (upgrade fUpTo2TomcatFail) sInit1).2.ghostLog.filter isJavaRestore
      = [Evt.restoreJava "1"]) ∧
    ((runM (upgrade fUpTo2TomcatFail) sInit1).2.optDirs.filter
      (fun n => containsSub n "openjdk-") = ["openjdk-1"]) ∧
    ((runM (upgrade fUpTo2TomcatFail) sInit1).2.optDirs.filter
      (fun n => containsSub n "tomcat-") = ["tomcat-9.0.1"]) := by decide

/-- Claim C2 (refuting evaluation): the upgrade whose Tomcat download
fails leaves the host on the old pair, yet the CLI upgrade command exits
with status 0; likewise an install whose Java download fails changes
nothing and the CLI install command still exits 0.  The code prints a
diagnostic but `upgrade()` (upgrade.js 432-434) and `install()` swallow
the error, so the claimed non-zero exit never happens. -/
theorem C2_failed_operations_exit_zero :
    cliUpgradeExit fUpTo2TomcatFail sInit1 = 0 ∧
    ((runM (upgrade fUpTo2TomcatFail) sInit1).2.optDirs.filter
      (fun n => containsSub n "tomcat-") = ["tomcat-9.0.1"]) ∧
    cliInstallExit fInstallJavaFail sEmpty = 0 ∧
    (runM (install fInstallJavaFail) sEmpty).2.optDirs = [] := by decide

/-- Claim C3 (counterexample): after upgrading the same host twice
(Java 1 to 2 to 3), the version-1 backup still exists — creating the
version-2 backup did not delete it, contradicting single-slot
retention. -/
theorem C3_counterexample_v1_backup_survives :
    "openjdk-1" ∈ afterTwoUpgrades.javaBackups := by decide

/-- Claim C3 (amended): `createBackup` deletes a prior backup only when
it has the same name, i.e. the same component version.  After two
successive upgrades both the v1 and the v2 backups exist; the rollback
selector (latest by version sort) picks the v2 one; re-creating a backup
under an existing name replaces it instead of accumulating. -/
theorem C3_per_version_backup_slot :
    afterTwoUpgrades.javaBackups = ["openjdk-1", "openjdk-2"] ∧
    sortVLast (afterTwoUpgrades.javaBackups.filter
      (fun n => containsSub n "openjdk-")) = "openjdk-2" ∧
    (runM (createBackupJava "openjdk-1") afterTwoUpgrades).2.javaBackups
      = ["openjdk-2", "openjdk-1"] := by decide

/-- Claim C4 (refuting evaluation): when the Java download fails after
the old installation was already backed up and removed, `upgradeJava`
calls `rollbackUpgrade` with the NEW version (upgrade.js 246), finds no
backup under that name, skips the restore (no ghost restore event) and
leaves the host with no Java installed at all, even though the backup of
the prior version exists and the whole operation resolves as if
handled. -/
theorem C4_java_fetch_failure_leaves_no_java :
    (runM (upgrade fUpTo2JavaFail) sInit1).1 = Except.ok () ∧
    ((runM (upgrade fUpTo2JavaFail) sInit1).2.optDirs.filter
      (fun n => containsSub n "openjdk-") = []) ∧
    (runM (upgrade fUpTo2JavaFail) sInit1).2.javaBackups = ["openjdk-1"] ∧
    (runM (upgrade fUpTo2JavaFail) sInit1).2.ghostLog = [] := by decide

/-- Claim C5 (counterexample): a coordinated upgrade in which only the
Java version already matches (Tomcat still needs 9.0.1 to 9.0.2) is
nevertheless aborted, with `process.exit(1)` — a failure status, not a
success-no-action — refuting both that the no-op abort happens exactly
when BOTH versions match and that it is reported as success. -/
theorem C5_counterexample_single_match_aborts :
    runM (upgrade fJavaOnlyMatch) sInit1 = (Except.error (Err.exit 1), sInit1) := by
  decide

/-- Claim C5 (amended): the orchestrated upgrade aborts, via
`process.exit(1)` (a failure exit), whenever the desired Java version
matches the current one OR the desired Tomcat version matches the
current one (in particular when both match); the abort performs no
state mutation at all. -/
theorem C5_abort_whenever_any_version_matches (f : Faults) (s : FsState) (cfg : Cfg)
    (hc : f.config = some cfg)
    (h : cfg.javaVersion = currentJavaOf s ∨ cfg.tomcatVersion = currentTomcatOf s) :
    runM (upgrade f) s = (Except.error (Err.exit 1), s) := by
  have hv := validate_exit cfg.javaVersion cfg.tomcatVersion s h
  simp [runM, upgrade, catchJS, bind_def, bindM, readUpgradeConfiguration, hc,
    getCurrentVersions, hv]

/-- Claim C5 witness: the amended theorem applied to the host of
`sInit1` with a descriptor matching on both components. -/
theorem C5_abort_witness :
    runM (upgrade fBothMatch) sInit1 = (Except.error (Err.exit 1), sInit1) :=
  C5_abort_whenever_any_version_matches fBothMatch sInit1
    { cfg12 with javaVersion := "1", tomcatVersion := "9.0.1" } rfl (Or.inl (by decide))

/-- Claim C6 (counterexample): a rollback requested when no backup
exists for either component completes normally — the CLI reports success
and exits 0 — rather than raising an error the caller treats as a
failure. -/
theorem C6_counterexample_no_backup_reports_success :
    runM rollback sInit1 = (Except.ok (), sInit1) ∧ cliRollbackExit sInit1 = 0 := by
  decide

/-- Claim C6 (amended): a rollback requested with no usable backup for
either component performs no action at all — the state is left exactly
unchanged — and returns normally, the CLI reporting success (exit 0)
after only logging a diagnostic. -/
theorem C6_no_backup_no_action (s : FsState)
    (hj : s.javaBackups.filter (fun n => containsSub n "openjdk-") = [])
    (ht : s.tomcatBackups.filter (fun n => containsSub n "tomcat-") = []) :
    runM rollback s = (Except.ok (), s) ∧ cliRollbackExit s = 0 := by
  have hja : rollbackJava s = (Except.ok (), s) := by
    simp [rollbackJava, catchJS, bind_def, bindM, getS, hj, sortVLast, pure_def, pureM]
  have hta : rollbackTomcat s = (Except.ok (), s) := by
    simp [rollbackTomcat, catchJS, bind_def, bindM, getS, ht, sortVLast, pure_def, pureM]
  have hrb : runM rollback s = (Except.ok (), s) := by
    simp [runM, rollback, catchJS, bind_def, bindM, hja, hta]
  exact ⟨hrb, by simp [cliRollbackExit, hrb]⟩

/-- Claim C6 witness: the amended theorem applied to the bare host. -/
theorem C6_no_backup_witness :
    runM rollback sEmpty = (Except.ok (), sEmpty) ∧ cliRollbackExit sEmpty = 0 :=
  C6_no_backup_no_action sEmpty rfl rfl

/-- Claim C7 (counterexample): after a successful rollback from
Installed(2) with backup 1, Java 1 is back at the canonical path, yet
`/etc/profile` still declares `JAVA_HOME=/opt/openjdk-2` — a directory
the rollback has just deleted — because `rollbackJava` rewrites only
`/etc/environment`; so the environment is not (fully) rebound to the
restored version. -/
theorem C7_counterexample_stale_profile_binding :
    ((runM rollback afterUpTo2).2.optDirs.filter
      (fun n => containsSub n "openjdk-") = ["openjdk-1"]) ∧
    "export JAVA_HOME=/opt/openjdk-2" ∈ (runM rollback afterUpTo2).2.etcProfile := by
  decide

/-- Claim C7 (amended): from Installed(2) with a backup of version 1, a
successful rollback ends with version 1 installed at the canonical path
for both components, the system-wide environment file
(`/etc/environment`) rebound to the restored Java home (the shell
profile declarations written by the previous upgrade are not updated),
the service unit regenerated and activated for the restored Tomcat
version, and both backups still present afterwards — the restore copies
and never deletes the backup. -/
theorem C7_rollback_restores_and_keeps_backup :
    (runM rollback afterUpTo2).1 = Except.ok () ∧
    ((runM rollback afterUpTo2).2.optDirs.filter
      (fun n => containsSub n "openjdk-") = ["openjdk-1"]) ∧
    ((runM rollback afterUpTo2).2.optDirs.filter
      (fun n => startsW n "tomcat-") = ["tomcat-9.0.1"]) ∧
    (runM rollback afterUpTo2).2.etcEnvironment = ["JAVA_HOME=\x22/opt/openjdk-1\x22"] ∧
    "tomcat-9.0.1.service" ∈ (runM rollback afterUpTo2).2.serviceUnits ∧
    (runM rollback afterUpTo2).2.activeTomcat = some "9.0.1" ∧
    (runM rollback afterUpTo2).2.javaBackups = ["openjdk-1"] ∧
    (runM rollback afterUpTo2).2.tomcatBackups = ["tomcat-9.0.1"] := by decide

/-- Claim C8 (counterexample): installing on a host whose
`/etc/profile` already declares `JAVA_HOME` leaves TWO `export
JAVA_HOME=` declaration lines in that file, because `installJava`
appends with `tee -a` and never removes the existing declaration —
refuting the at-most-one-declaration invariant for every operation. -/
theorem C8_counterexample_install_appends_second_declaration :
    ((runM (install fUpTo2) sInit1).2.etcProfile.filter
      (fun ln => startsW ln "export JAVA_HOME=")).length = 2 := by decide

/-- Claim C8 (amended): the upgrade and rollback environment mutations
are remove-then-set and converge to exactly one declaration line per
file even when the file starts with duplicated declarations; the install
path overwrites `/etc/environment` (one line) but appends to
`/etc/profile`, which can leave two declaration lines there. -/
theorem C8_remove_then_set_except_install_profile :
    (((runM (upgrade fUpTo2) sDupEnv).2.etcProfile.filter
      (fun ln => startsW ln "export JAVA_HOME=")).length = 1) ∧
    (((runM (upgrade fUpTo2) sDupEnv).2.etcEnvironment.filter
      (fun ln => startsW ln "JAVA_HOME=")).length = 1) ∧
    (((runM rollbackJava sDupEnv).2.etcEnvironment.filter
      (fun ln => startsW ln "JAVA_HOME=")).length = 1) ∧
    (((runM (install fUpTo2) sInit1).2.etcEnvironment.filter
      (fun ln => startsW ln "JAVA_HOME=")).length = 1) ∧
    (((runM (install fUpTo2) sInit1).2.etcProfile.filter
      (fun ln => startsW ln "export JAVA_HOME=")).length = 2) := by decide

/-- Claim C9 (counterexample): a fully successful coordinated upgrade
(1, 9.0.1 to 2, 9.0.2) persists no PreviousVersionsRecord at all — the
record file is still absent afterwards, so no rollback hint reflecting
the pre-transaction pair exists. -/
theorem C9_counterexample_upgrade_persists_no_record :
    (runM (upgrade fUpTo2) sInit1).1 = Except.ok () ∧
    (runM (upgrade fUpTo2) sInit1).2.optDirs = ["openjdk-2", "tomcat-9.0.2"] ∧
    (runM (upgrade fUpTo2) sInit1).2.prevVersionsFile = none := by decide

/-- Claim C9 (amended): only a successful install persists the record,
and it records the pair that install itself just put in place (the newly
active pair, which from then on is the last known-good pair); a
successful upgrade never rewrites it, so after install-then-upgrade the
record happens to hold the pre-upgrade pair.  The rollback
implementation never reads the record. -/
theorem C9_record_written_by_install_only :
    afterFreshInstall.prevVersionsFile = some ("2", "9.0.2") ∧
    (runM (upgrade fUpTo3) afterFreshInstall).1 = Except.ok () ∧
    (runM (upgrade fUpTo3) afterFreshInstall).2.prevVersionsFile = some ("2", "9.0.2") ∧
    ((runM (upgrade fUpTo3) afterFreshInstall).2.optDirs.filter
      (fun n => containsSub n "openjdk-") = ["openjdk-3"]) := by decide

/-- Claim C10: every execution of `uninstallJava`, `uninstallTomcat` and
`fullUninstall` resolves normally whatever the outcome of the underlying
command chains (both fault values of each flag are covered by the
quantifier), and the CLI uninstall command therefore always ends with
exit status 0. -/
theorem C10_uninstall_never_fails (f : Faults) (s : FsState) :
    (runM (uninstallJava f) s).1 = Except.ok () ∧
    (runM (uninstallTomcat f) s).1 = Except.ok () ∧
    (runM (fullUninstall f) s).1 = Except.ok () ∧
    cliUninstallExit f s = 0 := by
  cases hj : f.uninstallJavaOk <;> cases ht : f.uninstallTomcatOk <;>
    cases hp : s.prevVersionsFile <;>
    refine ⟨?_, ?_, ?_, ?_⟩ <;>
    simp [runM, uninstallJava, uninstallTomcat, fullUninstall, cliUninstallExit,
      removePreviousVersionsFile, catchJS, bind_def, bindM, modifyS, throwM,
      pure_def, pureM, rmOptGlob, hj, ht, hp]

end JavaManager
